import Mathlib

/-!
# A shallow embedding of the classic-container resolution engine

This file embeds, in Lean, the parts of the `classic-container` repository
that the verified claims are about:

* `settings.py` — the `Settings` rule object: its constructor and the four
  fluent mutators (`init`, `factory`, `scope`, `instance`), each of which
  guards an exclusivity invariant with Python `assert` statements
  (modelled as `Except AErr`).
* `constants.py` — `SIMPLE_TYPES`, the tuple of leaf types the container
  never manufactures.
* `resolver.py` — the `Resolver` engine: `__call__`, `reset`,
  `_get_instance`, `_create_instance`, `_get_factory_for`, `_call_factory`
  and `_resolve_kwargs_for_factory`.
* `registry.py` — `Registry.get` (the zero/many-candidates policy) and the
  `defaultdict(list)` storage consulted by the resolver.
* `builder.py` — the layered `Builder`: `get_settings`, `get_cached`,
  `cache_instance`, `detect_cycle` and `build`.

Modelling conventions:

* Python classes (targets) are `PyType`; every constructor of `PyType`
  other than `PyType.cls` stands for one concrete builtin class object
  (`int`, `str`, `float`, `Enum`, `IntEnum`, `UUID`, `date`, `datetime`,
  `bool`); user classes are `PyType.cls n`.  Equality of `PyType` is
  Python's equality of class objects (identity), so a subclass is *not*
  equal to its base — exactly how tuple membership `in SIMPLE_TYPES`
  behaves in the source.
* Built runtime values are `Value := Option Nat`: `none` is Python `None`,
  `some i` an ordinary object reference with identity `i`.  Each factory
  call that returns an object yields a fresh identity from the state's
  counter, which models `is`-identity of Python objects.  Object
  truthiness: `None` is falsy and an object reference truthy, which is how
  the guards `if instance:` / `if settings.instance_:` read for the class
  instances the container builds.
* Python `dict`s are association lists with first-match lookup and
  in-place-update-or-append assignment (`lookupA` / `upsertA`), preserving
  insertion order like a Python dict.
* A factory is a class constructor or an annotated function; its
  `inspect.signature` is the stored `params` list (name, resolved
  annotation, default, VAR-kind flag).  Calling it either raises
  `TypeError` (a required parameter is missing from the assembled kwargs),
  returns `None` (`retNone = true`, a factory function without a trailing
  `return`), or returns a fresh object.
* Exceptions are `Except` errors.  Recursion is fuel-indexed:
  `RErr.outOfFuel` / `BErr.outOfFuel` model Python's `RecursionError`
  (which is not a `ValueError`, so the builder's `except ValueError`
  does not catch it).
-/

namespace ClassicContainer

/-- A Python class object usable as a target or an annotation.
The named constructors are the builtin classes appearing in
`constants.SIMPLE_TYPES` plus `bool`; `cls n` is a user-defined class;
`inspectEmpty` is the class `inspect._empty`, the sentinel
`inspect.Parameter.empty` that marks a missing annotation — it is itself
a class (`inspect.isclass(inspect.Parameter.empty)` is `True`), which
matters to `Builder.build`'s parameter loop. -/
inductive PyType : Type
  | int
  | str
  | float
  | enum
  | intEnum
  | uuid
  | date
  | datetime
  | bool
  | inspectEmpty
  | cls (n : Nat)
  deriving DecidableEq, Repr

/-- `constants.SIMPLE_TYPES`: `(int, str, float, Enum, IntEnum, UUID, date,
datetime)`.  Note that `bool` is not a member. -/
def SIMPLE_TYPES : List PyType :=
  [.int, .str, .float, .enum, .intEnum, .uuid, .date, .datetime]

/-- `constants.SINGLETON`. -/
def SINGLETON : String := "SINGLETON"

/-- `constants.TRANSIENT`. -/
def TRANSIENT : String := "TRANSIENT"

/-- `constants.SCOPES`. -/
def SCOPES : List String := [SINGLETON, TRANSIENT]

/-- A runtime value: Python `None` or an object reference with identity. -/
abbrev Value := Option Nat

/-- A parameter's resolved annotation (`Registry.signature` resolves forward
references, so an annotation is `inspect.Parameter.empty`, a class object,
or a plain callable that is not a class).  `Ann.empty` is the
missing-annotation sentinel `inspect.Parameter.empty`: the resolver's loop
recognises it by identity (`parameter.annotation is inspect.Parameter.empty`)
and skips it, while the builder's loop has no such check — there the
sentinel falls through to `inspect.isclass(param.annotation)`, which is
`True` for the class `inspect._empty` (modelled as the build target
`PyType.inspectEmpty`). -/
inductive Ann : Type
  | empty
  | ofType (t : PyType)
  | function
  deriving DecidableEq, Repr

/-- A parameter's default: `inspect.Parameter.empty` or a value (which may
itself be Python `None`). -/
inductive Dflt : Type
  | empty
  | val (v : Value)
  deriving DecidableEq, Repr

/-- One entry of a factory's signature: name, resolved annotation, default,
and whether the parameter is VAR_POSITIONAL/VAR_KEYWORD. -/
structure Param : Type where
  name : String
  ann : Ann
  dflt : Dflt
  isVar : Bool
  deriving DecidableEq, Repr

/-- A settings-dict key: Python's one `_settings` dict is keyed by class
objects and by factory functions alike. -/
inductive SKey : Type
  | tcls (t : PyType)
  | tfn (n : Nat)
  deriving DecidableEq, Repr

/-- A factory: a class constructor (key `tcls`) or an annotated factory
function (key `tfn`).  `retNone` marks a factory function whose call
returns `None`. -/
structure Factory : Type where
  key : SKey
  params : List Param
  retNone : Bool
  deriving DecidableEq, Repr

/-- `settings.Settings`: the per-target rule.  Field names follow the
source (`scope_`, `init_`, `factory_`, `instance_`). -/
structure Settings : Type where
  scope_ : String
  init_ : List (String × Value)
  factory_ : Option Factory
  instance_ : Option Nat
  deriving DecidableEq, Repr

/-- `settings.EMPTY_SETTINGS = Settings()` (resolver.py imports it as
`empty_settings`). -/
def EMPTY_SETTINGS : Settings := ⟨SINGLETON, [], none, none⟩

/-- A failed Python `assert` (`AssertionError`). -/
inductive AErr : Type
  | assertionError
  deriving DecidableEq, Repr

/-- Association-list lookup, modelling `dict.get`. -/
def lookupA {α β : Type} [DecidableEq α] : List (α × β) → α → Option β
  | [], _ => none
  | (k, v) :: rest, k2 => if k = k2 then some v else lookupA rest k2

/-- Association-list update-or-append, modelling `d[k] = v`. -/
def upsertA {α β : Type} [DecidableEq α] : List (α × β) → α → β → List (α × β)
  | [], k, v => [(k, v)]
  | (k0, v0) :: rest, k, v =>
      if k0 = k then (k, v) :: rest else (k0, v0) :: upsertA rest k v

/-- `Settings.__init__(init=None, factory=None, scope=None, instance=None)`.
Its two `assert`s are modelled as `Except` errors; note the second one
compares `scope` against the misspelled literal `'SINGLETONE'`, exactly as
in the source. -/
def settingsInit (initArg : List (String × Value)) (factoryArg : Option Factory)
    (scopeArg : Option String) (instanceArg : Option Nat) : Except AErr Settings :=
  -- assert scope is None or scope in SCOPES
  if !(scopeArg.all fun sc => SCOPES.contains sc) then .error .assertionError
  -- assert instance is None or (instance is not None and not factory and
  --   not init and (scope is None or scope == 'SINGLETONE'))
  else if !(instanceArg.isNone ||
      (instanceArg.isSome && factoryArg.isNone && initArg.isEmpty &&
        (scopeArg.isNone || scopeArg == some "SINGLETONE"))) then
    .error .assertionError
  else
    -- scope_ = scope or SINGLETON; init_ = init or {}
    .ok ⟨scopeArg.getD SINGLETON, initArg, factoryArg, instanceArg⟩

/-- `Settings.init(**kwargs)`: asserts no instance is set, then replaces
`init_`. -/
def Settings.initM (s : Settings) (kwargs : List (String × Value)) :
    Except AErr Settings :=
  if !s.instance_.isNone then .error .assertionError
  else .ok ⟨s.scope_, kwargs, s.factory_, s.instance_⟩

/-- `Settings.factory(factory)`: asserts no instance is set, then replaces
`factory_`. -/
def Settings.factoryM (s : Settings) (f : Factory) : Except AErr Settings :=
  if !s.instance_.isNone then .error .assertionError
  else .ok ⟨s.scope_, s.init_, some f, s.instance_⟩

/-- `Settings.scope(name)`: asserts `name in SCOPES` and that either no
instance is set or `name == 'SINGLETON'` (spelled correctly here, unlike in
the constructor), then replaces `scope_`. -/
def Settings.scopeM (s : Settings) (name : String) : Except AErr Settings :=
  if !(SCOPES.contains name) then .error .assertionError
  else if !(s.instance_.isNone || name == "SINGLETON") then .error .assertionError
  else .ok ⟨name, s.init_, s.factory_, s.instance_⟩

/-- `Settings.instance(instance)`: asserts `init_` is empty, `factory_` is
unset and `scope_ == 'SINGLETON'`, then sets `instance_`. -/
def Settings.instanceM (s : Settings) (obj : Nat) : Except AErr Settings :=
  if !(s.init_.isEmpty && s.factory_.isNone && s.scope_ == "SINGLETON") then
    .error .assertionError
  else .ok ⟨s.scope_, s.init_, s.factory_, some obj⟩

/-! ## The Resolver (`resolver.py`)

The `Resolver` holds a registry (populated by the `Registrator`, untouched
by `reset`) and mutable `_settings` / `_instances` dicts.  The registry
storage is `defaultdict(list)` (`registry.Registry.__init__`), so looking
up a never-registered target yields `[]`. -/

/-- The registry: target class → ordered candidate factory list, with
`defaultdict(list)` read semantics via `registryGetD`. -/
structure RCfg : Type where
  registry : List (PyType × List Factory)
  deriving DecidableEq, Repr

/-- `defaultdict(list)` read: a missing key reads as the empty list. -/
def registryGetD (reg : List (PyType × List Factory)) (t : PyType) : List Factory :=
  (lookupA reg t).getD []

/-- The Resolver's mutable fields: `_settings`, `_instances`, plus the
fresh-identity counter for built objects and a flag recording whether a
`__call__` frame is currently on the stack (Python keeps no such field —
the call stack itself plays this role; it is carried here only so that
statements about `reset` can mention an in-flight resolution, and no
resolver operation ever reads it). -/
structure RState : Type where
  settings : List (SKey × Settings)
  instances : List (PyType × Nat)
  next : Nat
  resolving : Bool
  deriving DecidableEq, Repr

/-- `ResolutionError` (and the fuel marker standing for Python's
`RecursionError`).  Each constructor keeps the data the corresponding
message interpolates. -/
inductive RErr : Type
  /-- "Class {cls} do not have registered implementations." -/
  | noImplementation (t : PyType)
  /-- "Can not to resolve {cls}, implementations are: {factories}" -/
  | ambiguous (t : PyType)
  /-- "Can't resole attribute {name} for {factory}, attribute don't have
  default value and {factory} has returned None" -/
  | cantResolve (pname : String) (fkey : SKey)
  /-- "Call of {factory} failed with {exc}" (a `TypeError` wrapped). -/
  | callFailed (fkey : SKey)
  /-- Recursion budget exhausted (Python `RecursionError`). -/
  | outOfFuel
  deriving DecidableEq, Repr

/-- `Resolver._get_factory_for`: zero candidates or more than one raise
`ResolutionError`; otherwise the single candidate is returned. -/
def getFactoryFor (reg : List (PyType × List Factory)) (t : PyType) :
    Except RErr Factory :=
  match registryGetD reg t with
  | [] => .error (.noImplementation t)
  | [f] => .ok f
  | _ :: _ :: _ => .error (.ambiguous t)

/-- The factory-selection step of `Resolver._create_instance`:
`factory = settings.factory_ or self._get_factory_for(cls, stack)`.  An
explicit `factory_` short-circuits, so the registry is never consulted. -/
def selectFactory (reg : List (PyType × List Factory)) (st : Settings)
    (t : PyType) : Except RErr Factory :=
  match st.factory_ with
  | some f => .ok f
  | none => getFactoryFor reg t

/-- Whether calling the factory raises `TypeError`: some non-VAR parameter
has no default and received no keyword argument. -/
def missingRequired (params : List Param) (kwargs : List (String × Value)) : Bool :=
  params.any fun p => p.dflt == Dflt.empty && !p.isVar && (lookupA kwargs p.name).isNone

/-- `Resolver._resolve_kwargs_for_factory`'s parameter loop, parameterised
by the recursive `_get_instance` call (`build`).  In declaration order:
an `init_` entry is taken verbatim; an unannotated parameter is skipped; a
`SIMPLE_TYPES` annotation is skipped; a callable-but-not-class annotation
is skipped; otherwise the annotation is built recursively — a non-`None`
result is bound, a `None` result with a default is omitted, and a `None`
result without a default raises. -/
def resolveParams (build : PyType → RState → Except RErr (Value × RState))
    (fkey : SKey) (fset : Settings) :
    List Param → List (String × Value) → RState →
    Except RErr (List (String × Value) × RState)
  | [], acc, s => .ok (acc, s)
  | p :: rest, acc, s =>
    match lookupA fset.init_ p.name with
    | some v => resolveParams build fkey fset rest (upsertA acc p.name v) s
    | none =>
      match p.ann with
      | .empty => resolveParams build fkey fset rest acc s
      | .function => resolveParams build fkey fset rest acc s
      | .ofType t =>
        if t ∈ SIMPLE_TYPES then resolveParams build fkey fset rest acc s
        else
          match build t s with
          | .error e => .error e
          | .ok (some i, s1) =>
              resolveParams build fkey fset rest (upsertA acc p.name (some i)) s1
          | .ok (none, s1) =>
              if p.dflt = Dflt.empty then .error (.cantResolve p.name fkey)
              else resolveParams build fkey fset rest acc s1

/-- `Resolver._call_factory`: look up the factory's own settings
(`self._settings.get(factory, empty_settings)`), assemble kwargs, then call
the factory; a `TypeError` from the call is wrapped into a
`ResolutionError`. -/
def callFactoryF (build : PyType → RState → Except RErr (Value × RState))
    (f : Factory) (s : RState) : Except RErr (Value × RState) :=
  let fset := (lookupA s.settings f.key).getD EMPTY_SETTINGS
  match resolveParams build f.key fset f.params [] s with
  | .error e => .error e
  | .ok (kwargs, s1) =>
    if missingRequired f.params kwargs then .error (.callFailed f.key)
    else if f.retNone then .ok (none, s1)
    else .ok (some s1.next, ⟨s1.settings, s1.instances, s1.next + 1, s1.resolving⟩)

/-- `Resolver._create_instance`: a truthy `instance_` in the target's
settings is returned as-is; otherwise the factory is selected, called, and
a truthy result under `SINGLETON` scope is stored in `_instances`. -/
def createInstanceF (cfg : RCfg)
    (build : PyType → RState → Except RErr (Value × RState))
    (t : PyType) (s : RState) : Except RErr (Value × RState) :=
  let st := (lookupA s.settings (SKey.tcls t)).getD EMPTY_SETTINGS
  match st.instance_ with
  | some i => .ok (some i, s)
  | none =>
    match selectFactory cfg.registry st t with
    | .error e => .error e
    | .ok f =>
      match callFactoryF build f s with
      | .error e => .error e
      | .ok (some i, s1) =>
        -- if instance and settings.scope_ == SINGLETON: self._instances[cls] = instance
        if st.scope_ = SINGLETON then
          .ok (some i, ⟨s1.settings, upsertA s1.instances t i, s1.next, s1.resolving⟩)
        else .ok (some i, s1)
      | .ok (none, s1) => .ok (none, s1)

/-- `Resolver._get_instance`: return the cached instance if present,
otherwise create one.  Fuel-indexed; the fuel stands for the Python call
stack (`resolver.py` has no cycle detection, so a cyclic graph consumes
every budget). -/
def getInstance (cfg : RCfg) : Nat → PyType → RState → Except RErr (Value × RState)
  | 0, _, _ => .error .outOfFuel
  | fuel + 1, t, s =>
    match lookupA s.instances t with
    | some i => .ok (some i, s)
    | none => createInstanceF cfg (getInstance cfg fuel) t s

/-- `Resolver.__call__`: under the lock, resolve with a fresh diagnostic
stack.  The `resolving` flag is raised for the duration of the call (it
models the `__call__` frame being on the stack) and restored on return. -/
def resolveCall (cfg : RCfg) (fuel : Nat) (t : PyType) (s : RState) :
    Except RErr (Value × RState) :=
  match getInstance cfg fuel t ⟨s.settings, s.instances, s.next, true⟩ with
  | .ok (v, s1) => .ok (v, ⟨s1.settings, s1.instances, s1.next, s.resolving⟩)
  | .error e => .error e

/-- `Resolver.reset`: `self._settings = dict(); self._instances = dict()`.
The body is two plain assignments — there is no `assert`, no lock, and no
consultation of any in-progress state, so it can never fail. -/
def resolverReset (s : RState) : Except AErr RState :=
  .ok ⟨[], [], s.next, s.resolving⟩

/-! ## The layered Builder (`builder.py`)

A `Builder` owns a settings dict and an instance cache and points to an
optional `_previous` (parent) builder; `get_settings` / `get_cached` walk
the chain.  The chain is a non-empty list of layers whose head is the
current builder and whose last element is the root (the builder with
`_previous = None`).  The current builder also owns `_classes`, the
visited set used by `detect_cycle`; `build` recurses on the same builder,
so one set serves the whole recursion. -/

/-- One builder of the chain: its `_settings` dict and `_cache`. -/
structure Layer : Type where
  settings : List (SKey × Settings)
  cache : List (PyType × Nat)
  deriving DecidableEq, Repr

/-- The state `Builder.build` threads: the layer chain (head = the builder
`build` runs on), the current builder's `_classes` visited set, and the
fresh-identity counter. -/
structure BState : Type where
  layers : List Layer
  classes : List PyType
  next : Nat
  deriving DecidableEq, Repr

/-- The exceptions of a `Builder.build` run.  The first four are
`ValueError`s (the source raises `ValueError` for all of them); a
`TypeError` from the factory call and the fuel marker (`RecursionError`)
are not, which matters for the `except ValueError` in the parameter
loop. -/
inductive BErr : Type
  /-- "Cycle reference detected on class {target}" -/
  | cycleDetected (t : PyType)
  /-- `Registry.get`: "Class {target} do not have registered implementations." -/
  | noImplementation (t : PyType)
  /-- `Registry.get`: "Can not to resolve {target}, implementations are: ..." -/
  | ambiguous (t : PyType)
  /-- "Can't resole attribute {name} for {factory}, ..." -/
  | cantResolve (pname : String) (fkey : SKey)
  /-- An uncaught `TypeError` from `factory(**kwargs)`. -/
  | typeError (fkey : SKey)
  /-- Recursion budget exhausted. -/
  | outOfFuel
  deriving DecidableEq, Repr

/-- Which `BErr`s are Python `ValueError`s (caught by the parameter loop's
`except ValueError`). -/
def isValueError : BErr → Bool
  | .cycleDetected _ => true
  | .noImplementation _ => true
  | .ambiguous _ => true
  | .cantResolve _ _ => true
  | .typeError _ => false
  | .outOfFuel => false

/-- `Builder.get_settings`: search the chain from the current builder for a
settings entry; found → that settings with the index of its layer; not
found anywhere → `EMPTY_SETTINGS` paired with the index of the *root*
layer (the recursion bottoms out at the builder with `_previous = None`,
which returns itself). `i` is the index of the head of the remaining
chain. -/
def getSettings : List Layer → Nat → SKey → Settings × Nat
  | [], i, _ => (EMPTY_SETTINGS, i)
  | [l], i, k =>
    (match lookupA l.settings k with
     | some st => (st, i)
     | none => (EMPTY_SETTINGS, i))
  | l :: l2 :: rest, i, k =>
    (match lookupA l.settings k with
     | some st => (st, i)
     | none => getSettings (l2 :: rest) (i + 1) k)

/-- `Builder.get_cached`: search the chain for a cached instance. -/
def getCached : List Layer → PyType → Option Nat
  | [], _ => none
  | l :: rest, t =>
    match lookupA l.cache t with
    | some i => some i
    | none => getCached rest t

/-- `Builder.cache_instance` on the chain's builder at index `idx`
(`target_settings_layer.cache_instance(target, instance)`). -/
def cacheAt (s : BState) (idx : Nat) (t : PyType) (i : Nat) : BState :=
  ⟨s.layers.mapIdx fun j l => if j = idx then ⟨l.settings, upsertA l.cache t i⟩ else l,
   s.classes, s.next⟩

/-- The configuration the Builder resolves against: the `Registry`'s
storage (`_storage`, a `defaultdict(list)`). -/
structure BCfg : Type where
  registry : List (PyType × List Factory)
  deriving DecidableEq, Repr

/-- `Registry.get`: raises on a missing/empty candidate list and on more
than one candidate, otherwise returns the single candidate. -/
def registryGet (reg : List (PyType × List Factory)) (t : PyType) :
    Except BErr Factory :=
  match registryGetD reg t with
  | [] => .error (.noImplementation t)
  | [f] => .ok f
  | _ :: _ :: _ => .error (.ambiguous t)

/-- `param.annotation in SIMPLE_TYPES`: true only when the annotation is a
class object equal to one of the eight tuple members (an unannotated
parameter's `inspect.Parameter.empty` sentinel and a function annotation
are not members). -/
def annIsSimple : Ann → Bool
  | .ofType t => t ∈ SIMPLE_TYPES
  | _ => false

/-- The parameter loop of `Builder.build`, parameterised by the recursive
`self.build` call.  In order: an `init_` entry is taken verbatim; a
`SIMPLE_TYPES` annotation is skipped; a VAR parameter is skipped; then
anything `inspect.isclass` (or `_is_generic`) accepts — a class
annotation, but *also* the missing-annotation sentinel, because
`inspect.isclass(inspect.Parameter.empty)` is `True` for the class
`inspect._empty` — is built inside `try/except ValueError`: a caught
`ValueError` with a literal-`None` default skips the parameter, any other
caught error re-raises; on success, a non-`None` result is bound, a
`None` result without a default raises, and — because the assignment
`factory_kwargs[name] = instance` at the end of the loop body sits at the
level of the `if`, not inside it — a `None` result *with* a default is
bound as an explicit `None` argument.  Only a plain-function annotation
falls through unbound.  (In the caught-`ValueError` branch the model
continues with the pre-call state: its errors do not carry the mutated
builder state, whereas in Python the visited-set entry added by the
failed sub-build stays on the mutable builder.  No stated theorem
observes that difference.) -/
def buildParams (buildRec : PyType → BState → Except BErr (Value × BState))
    (fkey : SKey) (fset : Settings) :
    List Param → List (String × Value) → BState →
    Except BErr (List (String × Value) × BState)
  | [], acc, s => .ok (acc, s)
  | p :: rest, acc, s =>
    match lookupA fset.init_ p.name with
    | some v => buildParams buildRec fkey fset rest (upsertA acc p.name v) s
    | none =>
      if annIsSimple p.ann then buildParams buildRec fkey fset rest acc s
      else if p.isVar then buildParams buildRec fkey fset rest acc s
      else
        match p.ann with
        | .ofType t =>
          match buildRec t s with
          | .error e =>
            if isValueError e then
              if p.dflt = Dflt.val none then buildParams buildRec fkey fset rest acc s
              else .error e
            else .error e
          | .ok (some i, s1) =>
              -- assigned by the `if` branch and again by the trailing line
              buildParams buildRec fkey fset rest (upsertA acc p.name (some i)) s1
          | .ok (none, s1) =>
              if p.dflt = Dflt.empty then .error (.cantResolve p.name fkey)
              else
                -- the trailing `factory_kwargs[name] = instance` binds None
                buildParams buildRec fkey fset rest (upsertA acc p.name none) s1
        | .empty =>
          -- the sentinel inspect._empty is a class, so the builder
          -- recursively builds it exactly like a class annotation
          match buildRec PyType.inspectEmpty s with
          | .error e =>
            if isValueError e then
              if p.dflt = Dflt.val none then buildParams buildRec fkey fset rest acc s
              else .error e
            else .error e
          | .ok (some i, s1) =>
              buildParams buildRec fkey fset rest (upsertA acc p.name (some i)) s1
          | .ok (none, s1) =>
              if p.dflt = Dflt.empty then .error (.cantResolve p.name fkey)
              else buildParams buildRec fkey fset rest (upsertA acc p.name none) s1
        | .function => buildParams buildRec fkey fset rest acc s

/-- `Builder.build`: cache check along the chain; settings lookup (keeping
the layer the settings came from); a truthy `instance_` returned as-is;
`detect_cycle` (which only ever *adds* the target to `_classes` — nothing
removes it again); factory selection (`target_settings.factory_ or
self._registry.get(target)`); the factory's own settings; the parameter
loop; the call; and caching of a truthy result under `SINGLETON` scope at
the layer the *target's* settings came from. -/
def build (cfg : BCfg) : Nat → PyType → BState → Except BErr (Value × BState)
  | 0, _, _ => .error .outOfFuel
  | fuel + 1, t, s =>
    match getCached s.layers t with
    | some i => .ok (some i, s)
    | none =>
      let ts := getSettings s.layers 0 (SKey.tcls t)
      match ts.1.instance_ with
      | some i => .ok (some i, s)
      | none =>
        -- detect_cycle
        if t ∈ s.classes then .error (.cycleDetected t)
        else
          let s1 : BState := ⟨s.layers, t :: s.classes, s.next⟩
          match (match ts.1.factory_ with
                 | some f => Except.ok f
                 | none => registryGet cfg.registry t) with
          | .error e => .error e
          | .ok f =>
            let fset := (getSettings s1.layers 0 f.key).1
            match buildParams (build cfg fuel) f.key fset f.params [] s1 with
            | .error e => .error e
            | .ok (kwargs, s2) =>
              if missingRequired f.params kwargs then .error (.typeError f.key)
              else if f.retNone then
                -- a falsy (None) instance is never cached
                .ok (none, s2)
              else
                let i := s2.next
                let s3 : BState := ⟨s2.layers, s2.classes, s2.next + 1⟩
                if ts.1.scope_ = SINGLETON then .ok (some i, cacheAt s3 ts.2 t i)
                else .ok (some i, s3)

/-! ## Concrete scenarios used by the claim theorems -/

/-- User classes for the scenarios. -/
def tgtX : PyType := .cls 0

/-- Second user class. -/
def tgtA : PyType := .cls 1

/-- Third user class. -/
def tgtB : PyType := .cls 2

/-- Fourth user class. -/
def tgtC : PyType := .cls 3

/-- A dependency-free concrete class registered for itself. -/
def noDepCtor : Factory := ⟨SKey.tcls tgtX, [], false⟩

/-- A parameterless factory function that falls through without `return`,
yielding `None`. -/
def noneFactory : Factory := ⟨SKey.tfn 9, [], true⟩

/-- A parameterless factory function returning a fresh object. -/
def objFactory : Factory := ⟨SKey.tfn 9, [], false⟩

/-- The empty resolver registry (nothing ever registered). -/
def emptyCfgR : RCfg := ⟨[]⟩

/-- The empty builder registry. -/
def emptyCfgB : BCfg := ⟨[]⟩

/-- A fresh resolver state. -/
def rsInit : RState := ⟨[], [], 0, false⟩

/-- A fresh single-layer builder state. -/
def bsInit : BState := ⟨[⟨[], []⟩], [], 0⟩

/-- C1: a factory parameter `p : tgtC` with the literal default `None`
(`def g(p: C = None)`). -/
def paramWithDefault : Param := ⟨"p", Ann.ofType tgtC, Dflt.val none, false⟩

/-- C1: the same parameter with no default. -/
def paramRequired : Param := ⟨"p", Ann.ofType tgtC, Dflt.empty, false⟩

/-- C1: the key of the outer factory owning the parameter. -/
def outerKey : SKey := SKey.tfn 0

/-- C1: registry where `tgtC`'s only factory returns `None`. -/
def cfgCNone : RCfg := ⟨[(tgtC, [noneFactory])]⟩

/-- C1: registry where `tgtC`'s only factory returns an object. -/
def cfgCObj : RCfg := ⟨[(tgtC, [objFactory])]⟩

/-- C1: the builder-side registry where `tgtC`'s factory returns `None`. -/
def cfgCNoneB : BCfg := ⟨[(tgtC, [noneFactory])]⟩

/-- C2: constructor of the diamond root `X(a: A, b: B)`. -/
def ctorX : Factory :=
  ⟨SKey.tcls tgtX,
   [⟨"a", Ann.ofType tgtA, Dflt.empty, false⟩,
    ⟨"b", Ann.ofType tgtB, Dflt.empty, false⟩], false⟩

/-- C2: constructor `A(c: C)`. -/
def ctorA : Factory := ⟨SKey.tcls tgtA, [⟨"c", Ann.ofType tgtC, Dflt.empty, false⟩], false⟩

/-- C2: constructor `B(c: C)`. -/
def ctorB : Factory := ⟨SKey.tcls tgtB, [⟨"c", Ann.ofType tgtC, Dflt.empty, false⟩], false⟩

/-- C2: the dependency-free constructor `C()`. -/
def ctorC : Factory := ⟨SKey.tcls tgtC, [], false⟩

/-- C2: the acyclic diamond X → {A, B} → C. -/
def diamondCfg : BCfg :=
  ⟨[(tgtX, [ctorX]), (tgtA, [ctorA]), (tgtB, [ctorB]), (tgtC, [ctorC])]⟩

/-- C2: a single layer whose only rule scopes `tgtC` TRANSIENT. -/
def transientCLayer : Layer := ⟨[(SKey.tcls tgtC, ⟨TRANSIENT, [], none, none⟩)], []⟩

/-- C2: the builder state for the diamond scenario. -/
def diamondState : BState := ⟨[transientCLayer], [], 0⟩

/-- C3: a self-referencing constructor `A(a: A)`. -/
def selfCtor : Factory := ⟨SKey.tcls tgtA, [⟨"a", Ann.ofType tgtA, Dflt.empty, false⟩], false⟩

/-- C3: the self-cycle registry for the builder. -/
def selfCfgB : BCfg := ⟨[(tgtA, [selfCtor])]⟩

/-- C3: the self-cycle registry for the resolver. -/
def selfCfgR : RCfg := ⟨[(tgtA, [selfCtor])]⟩

/-- C3: constructor `A(b: B)` of the mutual cycle. -/
def ctorAtoB : Factory := ⟨SKey.tcls tgtA, [⟨"b", Ann.ofType tgtB, Dflt.empty, false⟩], false⟩

/-- C3: constructor `B(a: A)` of the mutual cycle. -/
def ctorBtoA : Factory := ⟨SKey.tcls tgtB, [⟨"a", Ann.ofType tgtA, Dflt.empty, false⟩], false⟩

/-- C3: the mutual-cycle registry A → B → A for the builder. -/
def mutualCfgB : BCfg := ⟨[(tgtA, [ctorAtoB]), (tgtB, [ctorBtoA])]⟩

/-- C4/C10: two competing factories for one target. -/
def fac1 : Factory := ⟨SKey.tcls tgtA, [], false⟩

/-- C4: the second competing factory. -/
def fac2 : Factory := ⟨SKey.tcls tgtB, [], false⟩

/-- C4: a registry with two candidates for `tgtX`. -/
def ambigCfg : RCfg := ⟨[(tgtX, [fac1, fac2])]⟩

/-- C4: a rule that names an explicit factory for the target. -/
def overrideSettings : Settings := ⟨SINGLETON, [], some fac1, none⟩

/-- C5: builder registry with one dependency-free class and no rules. -/
def noRuleCfg : BCfg := ⟨[(tgtX, [noDepCtor])]⟩

/-- C5: a two-builder chain (a nested resolve), both layers rule-free. -/
def twoLayerState : BState := ⟨[⟨[], []⟩, ⟨[], []⟩], [], 0⟩

/-- C5: a two-builder chain whose parent (root) layer holds the rule for
`tgtX`. -/
def parentRuleState : BState :=
  ⟨[⟨[], []⟩, ⟨[(SKey.tcls tgtX, EMPTY_SETTINGS)], []⟩], [], 0⟩

/-- C5: builder registry where `tgtX`'s factory returns `None`. -/
def noneResultCfg : BCfg := ⟨[(tgtX, [noneFactory])]⟩

/-- C6/C9/C10: resolver registry with one dependency-free class. -/
def singletonCfgR : RCfg := ⟨[(tgtX, [noDepCtor])]⟩

/-- C6: the state after the first successful resolve of `tgtX`. -/
def cachedState : RState := ⟨[], [(tgtX, 0)], 1, false⟩

/-- C8: constructor of a class with a `bool`-annotated required
parameter. -/
def boolParamCtor : Factory :=
  ⟨SKey.tcls tgtX, [⟨"x", Ann.ofType PyType.bool, Dflt.empty, false⟩], false⟩

/-- C8: registry holding only that class. -/
def boolCfg : RCfg := ⟨[(tgtX, [boolParamCtor])]⟩

/-- C8: parameters that the resolver does skip: unannotated, `int`,
`str`, `date`. -/
def simpleParams : List Param :=
  [⟨"u", Ann.empty, Dflt.empty, false⟩,
   ⟨"n", Ann.ofType PyType.int, Dflt.empty, false⟩,
   ⟨"s", Ann.ofType PyType.str, Dflt.empty, false⟩,
   ⟨"d", Ann.ofType PyType.date, Dflt.empty, false⟩]

/-- C8: parameters that the builder does skip: only `SIMPLE_TYPES`
annotations (the builder does not skip unannotated parameters). -/
def simpleOnlyParams : List Param :=
  [⟨"n", Ann.ofType PyType.int, Dflt.empty, false⟩,
   ⟨"s", Ann.ofType PyType.str, Dflt.empty, false⟩,
   ⟨"d", Ann.ofType PyType.date, Dflt.empty, false⟩]

/-- C9: a state with a factory override for `tgtX` that yields `None`
(so the override is observable before `reset` and gone after it). -/
def overrideToNoneState : RState :=
  ⟨[(SKey.tcls tgtX, ⟨SINGLETON, [], some noneFactory, none⟩)], [], 0, false⟩

/-- C10: a registry where the abstract `tgtA` was registered as a
placeholder: a key with zero factories. -/
def placeholderCfg : RCfg := ⟨[(tgtA, [])]⟩

/-- C4: a state whose settings dict holds the explicit-factory rule for
`tgtX`. -/
def overrideState : RState := ⟨[(SKey.tcls tgtX, overrideSettings)], [], 0, false⟩

/-! ## Helper lemmas -/

/-- A dict assignment is visible to a subsequent lookup of the same key. -/
theorem lookupA_upsertA_self {α β : Type} [DecidableEq α]
    (l : List (α × β)) (k : α) (v : β) : lookupA (upsertA l k v) k = some v := by
  induction l with
  | nil => simp [upsertA, lookupA]
  | cons hd tl ih =>
    obtain ⟨k0, v0⟩ := hd
    by_cases h : k0 = k
    · simp [upsertA, h, lookupA]
    · simp [upsertA, h, lookupA, ih]

/-- `resolver.py` has no cycle detection: on the self-cycle registry
`selfCfgR` (`A(a: A)` registered for itself), `_get_instance` consumes any
recursion budget without ever completing or raising a cycle error —
Python's recursion merely hits `RecursionError`. -/
theorem resolverSelfCycleDiverges (fuel : Nat) :
    ∀ s : RState, lookupA s.instances tgtA = none →
      lookupA s.settings (SKey.tcls tgtA) = none →
      getInstance selfCfgR fuel tgtA s = .error .outOfFuel := by
  induction fuel with
  | zero => intro s _ _; rfl
  | succ n ih =>
    intro s h1 h2
    have ih' := ih s h1 h2
    simp only [selfCfgR, selfCtor, tgtA] at ih'
    simp only [tgtA] at h1 h2
    simp [getInstance, createInstanceF, callFactoryF, resolveParams, selectFactory,
      getFactoryFor, registryGetD, selfCfgR, selfCtor, tgtA, EMPTY_SETTINGS,
      lookupA, SIMPLE_TYPES, missingRequired, h1, h2, ih']

/-! ## The claims -/

/-- C1 — For every factory parameter whose declared type is recursively
built: a non-`None` result is bound; a `None` result with a default is
*supposed* to be omitted so the default applies; a `None` result without a
default fails naming the parameter and the factory.  The resolver
(`_resolve_kwargs_for_factory`) implements all three branches, but
`Builder.build`'s parameter loop ends with a stray `factory_kwargs[name] =
instance` at the level of the `if`, so in the builder the `None` result
with a default is bound as an explicit `None` argument instead of being
omitted.  The four conjuncts evaluate, in order: the bind branch, the
resolver's omit branch, the missing-dependency branch, and the builder's
divergent behaviour on the omit branch. -/
theorem claim_C1_default_not_applied :
    resolveParams (getInstance cfgCObj 5) outerKey EMPTY_SETTINGS
        [paramWithDefault] [] rsInit = .ok ([("p", some 0)], ⟨[], [(tgtC, 0)], 1, false⟩)
    ∧ resolveParams (getInstance cfgCNone 5) outerKey EMPTY_SETTINGS
        [paramWithDefault] [] rsInit = .ok ([], rsInit)
    ∧ resolveParams (getInstance cfgCNone 5) outerKey EMPTY_SETTINGS
        [paramRequired] [] rsInit = .error (.cantResolve "p" outerKey)
    ∧ buildParams (build cfgCNoneB 5) outerKey EMPTY_SETTINGS
        [paramWithDefault] [] bsInit = .ok ([("p", none)], ⟨[⟨[], []⟩], [tgtC], 0⟩) :=
  ⟨rfl, rfl, rfl, rfl⟩

/-- C2 — The claim says a target is removed from the cycle-detection
visited set when its `build` call returns.  Nothing in `Builder` ever
removes an entry from `_classes`: after a successful `build` of the
TRANSIENT-scoped `tgtC` the returned state still lists `tgtC` as visited
(second conjunct), and resolving the acyclic diamond X → {A, B} → C with C
TRANSIENT therefore raises the cycle error on the sibling branch (first
conjunct). -/
theorem claim_C2_visited_set_never_pruned :
    build diamondCfg 10 tgtX diamondState = .error (.cycleDetected tgtC)
    ∧ build diamondCfg 10 tgtC diamondState =
        .ok (some 0, ⟨[transientCLayer], [tgtC], 1⟩) :=
  ⟨rfl, rfl⟩

/-- C3 — Resolving a type on a constructor-dependency cycle.
`Builder.detect_cycle` delivers the claimed behaviour: the direct
self-reference `A(a: A)` and both entry points of the mutual cycle
A → B → A fail with the cycle error naming the offending type (first three
conjuncts).  The `Resolver`, however, has no cycle detection at all: on
the same self-cycle it recurses without bound — for every recursion
budget it neither completes nor raises a cycle error (last conjunct). -/
theorem claim_C3_cycle_outcomes :
    build selfCfgB 10 tgtA bsInit = .error (.cycleDetected tgtA)
    ∧ build mutualCfgB 10 tgtA bsInit = .error (.cycleDetected tgtA)
    ∧ build mutualCfgB 10 tgtB bsInit = .error (.cycleDetected tgtB)
    ∧ (∀ fuel : Nat, getInstance selfCfgR fuel tgtA rsInit = .error .outOfFuel) :=
  ⟨rfl, rfl, rfl, fun fuel => resolverSelfCycleDiverges fuel rsInit rfl rfl⟩

/-- C5 (counterexample) — With a two-builder chain (a nested resolve) and
no rule for `tgtX` in any layer, the built singleton is cached at the
*root* layer: the returned state shows the current (head) layer's cache
still empty and the instance stored in the root layer's cache,
contradicting the claim that the current layer receives it. -/
theorem claim_C5_counterexample :
    build noRuleCfg 5 tgtX twoLayerState =
      .ok (some 0, ⟨[⟨[], []⟩, ⟨[], [(tgtX, 0)]⟩], [tgtX], 1⟩) := rfl

/-- C7 — The `Settings` exclusivity invariant around `instance`.  The
constructor's second `assert` compares the scope against the misspelled
literal `'SINGLETONE'`, so `Settings(instance=obj, scope=SINGLETON)` is
rejected (first conjunct) even though the assertion's own message says
"scope must be SINGLETON" and the `scope` mutator accepts exactly that
combination (third conjunct).  Omitting the scope is accepted (second
conjunct), and every combination of an instance with init values, a
factory, or TRANSIENT scope is rejected on both paths (remaining
conjuncts). -/
theorem claim_C7_settings_exclusivity :
    settingsInit [] none (some SINGLETON) (some 1) = .error .assertionError
    ∧ settingsInit [] none none (some 1) = .ok ⟨SINGLETON, [], none, some 1⟩
    ∧ (settingsInit [] none none none >>= fun s => s.instanceM 1 >>=
        fun s => s.scopeM SINGLETON) = .ok ⟨SINGLETON, [], none, some 1⟩
    ∧ settingsInit [("a", some 2)] none none (some 1) = .error .assertionError
    ∧ settingsInit [] (some fac1) none (some 1) = .error .assertionError
    ∧ settingsInit [] none (some TRANSIENT) (some 1) = .error .assertionError
    ∧ (settingsInit [] none none none >>= fun s => s.instanceM 1 >>=
        fun s => s.scopeM TRANSIENT) = .error .assertionError
    ∧ (settingsInit [] none none none >>= fun s => s.instanceM 1 >>=
        fun s => s.initM [("a", some 2)]) = .error .assertionError
    ∧ (settingsInit [] none none none >>= fun s => s.instanceM 1 >>=
        fun s => s.factoryM fac1) = .error .assertionError :=
  ⟨rfl, rfl, rfl, rfl, rfl, rfl, rfl, rfl, rfl⟩

/-- C8 (counterexample) — `bool` is not a member of
`constants.SIMPLE_TYPES`, so a `bool`-annotated parameter is *not*
skipped: resolving a class whose constructor requires `x: bool` makes the
resolver look `bool` up in the registry and fail with the
no-implementation error for `bool`, where the claim says the parameter is
never looked up or built. -/
theorem claim_C8_counterexample :
    PyType.bool ∉ SIMPLE_TYPES
    ∧ getInstance boolCfg 5 tgtX rsInit = .error (.noImplementation PyType.bool) :=
  ⟨by decide, rfl⟩

/-- C9 (counterexample) — `Resolver.reset` contains no assertion: applied
to a state in which a resolution is in flight (`resolving = true`), it
succeeds and clears the stores instead of failing fast. -/
theorem claim_C9_counterexample :
    resolverReset ⟨[(SKey.tcls tgtX, EMPTY_SETTINGS)], [(tgtX, 0)], 3, true⟩ =
      .ok ⟨[], [], 3, true⟩ := rfl

/-- A list of length at least two starts with two elements. -/
theorem twoLeSplit {α : Type} (l : List α) (h : 2 ≤ l.length) :
    ∃ a b rest, l = a :: b :: rest := by
  match l with
  | [] => simp at h
  | [a] => norm_num at h
  | a :: b :: rest => exact ⟨a, b, rest, rfl⟩

/-- C4 — Factory selection for a target with no cached instance and no
pre-built `instance_` rule: with no explicit factory, zero registry
candidates fail with the no-implementation error and two or more fail with
the ambiguous-implementation error; an explicit `factory_` in the rule is
chosen outright (`settings.factory_ or self._get_factory_for(cls)`), so
the registry's candidate count is never examined.  The last two conjuncts
state the same zero/many policy for `Registry.get`, the builder-side
lookup. -/
theorem claim_C4_factory_selection (cfg : RCfg) (fuel : Nat) (t : PyType)
    (s : RState) (st : Settings)
    (hst : (lookupA s.settings (SKey.tcls t)).getD EMPTY_SETTINGS = st)
    (hnc : lookupA s.instances t = none)
    (hinst : st.instance_ = none) :
    (st.factory_ = none → registryGetD cfg.registry t = [] →
      getInstance cfg (fuel + 1) t s = .error (.noImplementation t))
    ∧ (st.factory_ = none → 2 ≤ (registryGetD cfg.registry t).length →
      getInstance cfg (fuel + 1) t s = .error (.ambiguous t))
    ∧ (∀ f, st.factory_ = some f → selectFactory cfg.registry st t = .ok f)
    ∧ (registryGetD cfg.registry t = [] →
      registryGet cfg.registry t = .error (.noImplementation t))
    ∧ (2 ≤ (registryGetD cfg.registry t).length →
      registryGet cfg.registry t = .error (.ambiguous t)) := by
  refine ⟨?_, ?_, ?_, ?_, ?_⟩
  · intro hf hreg
    simp [getInstance, hnc, createInstanceF, hst, hinst, selectFactory, hf,
      getFactoryFor, hreg]
  · intro hf hlen
    obtain ⟨a, b, rest, hr⟩ := twoLeSplit _ hlen
    simp [getInstance, hnc, createInstanceF, hst, hinst, selectFactory, hf,
      getFactoryFor, hr]
  · intro f hf
    simp [selectFactory, hf]
  · intro hreg
    simp [registryGet, hreg]
  · intro hlen
    obtain ⟨a, b, rest, hr⟩ := twoLeSplit _ hlen
    simp [registryGet, hr]

/-- C4 (witness) — the three resolver-side conclusions at concrete inputs:
nothing registered for `tgtX`; two candidates for `tgtX`; the
explicit-factory rule selecting `fac1`. -/
theorem claim_C4_witness :
    getInstance emptyCfgR 4 tgtX rsInit = .error (.noImplementation tgtX)
    ∧ getInstance ambigCfg 4 tgtX rsInit = .error (.ambiguous tgtX)
    ∧ selectFactory ambigCfg.registry overrideSettings tgtX = .ok fac1 :=
  ⟨(claim_C4_factory_selection emptyCfgR 3 tgtX rsInit EMPTY_SETTINGS rfl rfl rfl).1
      rfl rfl,
   (claim_C4_factory_selection ambigCfg 3 tgtX rsInit EMPTY_SETTINGS rfl rfl rfl).2.1
      rfl (by decide),
   (claim_C4_factory_selection ambigCfg 3 tgtX overrideState overrideSettings rfl rfl
      rfl).2.2.1 fac1 rfl⟩

/-- C10 — A target that was never registered reads from the
`defaultdict(list)` registry as the empty candidate list, exactly like a
target registered as a placeholder with zero factories, so `resolve`
fails with the same no-implementation `ResolutionError` in both cases
(no distinct "not registered" outcome exists). -/
theorem claim_C10_unregistered_same_error (cfg : RCfg) (fuel : Nat) (t : PyType)
    (s : RState)
    (hset : lookupA s.settings (SKey.tcls t) = none)
    (hnc : lookupA s.instances t = none)
    (hreg : lookupA cfg.registry t = none ∨ lookupA cfg.registry t = some []) :
    getInstance cfg (fuel + 1) t s = .error (.noImplementation t) := by
  have hreg' : registryGetD cfg.registry t = [] := by
    rcases hreg with h | h <;> simp [registryGetD, h]
  simp [getInstance, hnc, createInstanceF, hset, EMPTY_SETTINGS, selectFactory,
    getFactoryFor, hreg']

/-- C10 (witness) — resolving `tgtA` against the empty registry (never
registered) and against the placeholder registry (registered with zero
factories) both yield the very same no-implementation error. -/
theorem claim_C10_witness :
    getInstance emptyCfgR 4 tgtA rsInit = .error (.noImplementation tgtA)
    ∧ getInstance placeholderCfg 4 tgtA rsInit = .error (.noImplementation tgtA) :=
  ⟨claim_C10_unregistered_same_error emptyCfgR 3 tgtA rsInit rfl rfl (Or.inl rfl),
   claim_C10_unregistered_same_error placeholderCfg 3 tgtA rsInit rfl rfl (Or.inr rfl)⟩

/-- C8 (amended) — Parameter skipping differs per engine.  The *resolver*
skips every parameter (not named in `init_`) that has no declared type or
whose declared type is one of the eight members of
`constants.SIMPLE_TYPES` (`int`, `str`, `float`, `Enum`, `IntEnum`,
`UUID`, `date`, `datetime` — `bool` is not among them): kwargs and state
come back unchanged for *any* recursive-build continuation, so no factory
lookup and no recursive build ever happens (first conjunct).  The
*builder* skips only the eight `SIMPLE_TYPES` annotations that way
(second conjunct); an *unannotated* parameter is not skipped there —
`inspect.isclass(inspect.Parameter.empty)` is `True`, so the builder
recursively builds the sentinel class `inspect._empty`, whose registry
lookup fails: a required unannotated parameter aborts the whole build
with the no-implementation error for `inspect._empty` (third conjunct),
and the parameter is left out of the kwargs only when its default is
literally `None`, via the `except ValueError` branch (fourth conjunct).
A `bool`-annotated parameter is recursively built in the builder too
(fifth conjunct). -/
theorem claim_C8_simple_types_skipped :
    (∀ (fset : Settings) (fkey : SKey) (ps : List Param),
      (∀ p ∈ ps, lookupA fset.init_ p.name = none ∧
        (p.ann = Ann.empty ∨ annIsSimple p.ann = true)) →
      ∀ (build : PyType → RState → Except RErr (Value × RState))
        (acc : List (String × Value)) (s : RState),
        resolveParams build fkey fset ps acc s = .ok (acc, s))
    ∧ (∀ (fset : Settings) (fkey : SKey) (ps : List Param),
      (∀ p ∈ ps, lookupA fset.init_ p.name = none ∧ annIsSimple p.ann = true) →
      ∀ (buildRec : PyType → BState → Except BErr (Value × BState))
        (acc : List (String × Value)) (s : BState),
        buildParams buildRec fkey fset ps acc s = .ok (acc, s))
    ∧ buildParams (build emptyCfgB 3) outerKey EMPTY_SETTINGS
        [⟨"u", Ann.empty, Dflt.empty, false⟩] [] bsInit =
        .error (.noImplementation PyType.inspectEmpty)
    ∧ (∃ s', buildParams (build emptyCfgB 3) outerKey EMPTY_SETTINGS
        [⟨"u", Ann.empty, Dflt.val none, false⟩] [] bsInit = .ok ([], s'))
    ∧ buildParams (build emptyCfgB 3) outerKey EMPTY_SETTINGS
        [⟨"x", Ann.ofType PyType.bool, Dflt.empty, false⟩] [] bsInit =
        .error (.noImplementation PyType.bool) := by
  refine ⟨?_, ?_, rfl, ⟨bsInit, rfl⟩, rfl⟩
  · intro fset fkey ps h
    induction ps with
    | nil => exact fun _ _ _ => rfl
    | cons p rest ih =>
      obtain ⟨hinit, hann⟩ := h p (List.mem_cons_self _ _)
      have hrest := ih fun q hq => h q (List.mem_cons_of_mem _ hq)
      intro build acc s
      cases hA : p.ann with
      | empty => simp [resolveParams, hinit, hA, hrest]
      | function => simp [resolveParams, hinit, hA, hrest]
      | ofType t =>
        have ht : t ∈ SIMPLE_TYPES := by
          rcases hann with ha | ha
          · rw [hA] at ha; cases ha
          · rw [hA] at ha; simpa [annIsSimple] using ha
        simp [resolveParams, hinit, hA, ht, hrest]
  · intro fset fkey ps h
    induction ps with
    | nil => exact fun _ _ _ => rfl
    | cons p rest ih =>
      obtain ⟨hinit, hann⟩ := h p (List.mem_cons_self _ _)
      have hrest := ih fun q hq => h q (List.mem_cons_of_mem _ hq)
      intro buildRec acc s
      cases hA : p.ann with
      | empty => rw [hA] at hann; simp [annIsSimple] at hann
      | function => rw [hA] at hann; simp [annIsSimple] at hann
      | ofType t =>
        have ht : t ∈ SIMPLE_TYPES := by rw [hA] at hann; simpa [annIsSimple] using hann
        simp [buildParams, hinit, hA, annIsSimple, ht, hrest]

/-- C8 (witness) — the two skip conjuncts at concrete parameter lists:
the resolver on an unannotated parameter plus `int`/`str`/`date`
parameters, the builder on the `int`/`str`/`date` parameters only, each
with the recursive continuation instantiated by the engine's own build on
an empty registry. -/
theorem claim_C8_witness :
    resolveParams (getInstance emptyCfgR 3) outerKey EMPTY_SETTINGS
      simpleParams [] rsInit = .ok ([], rsInit)
    ∧ buildParams (build emptyCfgB 3) outerKey EMPTY_SETTINGS
      simpleOnlyParams [] bsInit = .ok ([], bsInit) :=
  ⟨claim_C8_simple_types_skipped.1 EMPTY_SETTINGS outerKey simpleParams (by decide)
      (getInstance emptyCfgR 3) [] rsInit,
   claim_C8_simple_types_skipped.2.1 EMPTY_SETTINGS outerKey simpleOnlyParams (by decide)
      (build emptyCfgB 3) [] bsInit⟩

/-- C5 (amended) — A successful truthy SINGLETON build is cached at the
layer where the target's rule was found: `get_settings` yields the first
layer of the chain holding a rule (second conjunct: a rule in the parent
of a two-layer chain is found at the parent, index 1), and when *no*
layer holds a rule it yields `EMPTY_SETTINGS` with the *root* (outermost)
layer's index — not the current layer's (first conjunct).  Consequently a
rule found in the parent caches there (third conjunct, the built instance
lands in the root layer's cache), and a `None` construction result is
never cached anywhere (fourth conjunct). -/
theorem claim_C5_cache_layer :
    (∀ (layers : List Layer) (i : Nat) (k : SKey),
      layers ≠ [] → (∀ l ∈ layers, lookupA l.settings k = none) →
      getSettings layers i k = (EMPTY_SETTINGS, i + layers.length - 1))
    ∧ (∀ (child root : Layer) (st : Settings) (k : SKey),
      lookupA child.settings k = none → lookupA root.settings k = some st →
      getSettings [child, root] 0 k = (st, 1))
    ∧ build noRuleCfg 5 tgtX parentRuleState =
        .ok (some 0,
          ⟨[⟨[], []⟩, ⟨[(SKey.tcls tgtX, EMPTY_SETTINGS)], [(tgtX, 0)]⟩], [tgtX], 1⟩)
    ∧ build noneResultCfg 5 tgtX twoLayerState =
        .ok (none, ⟨[⟨[], []⟩, ⟨[], []⟩], [tgtX], 0⟩) := by
  refine ⟨?_, ?_, rfl, rfl⟩
  · intro layers
    induction layers with
    | nil => intro i k h _; exact absurd rfl h
    | cons l rest ih =>
      intro i k _ hall
      have hl : lookupA l.settings k = none := hall l (List.mem_cons_self _ _)
      cases rest with
      | nil => simp [getSettings, hl]
      | cons l2 rest2 =>
        have h2 := ih (i + 1) k (by simp)
          (fun l' hl' => hall l' (List.mem_cons_of_mem _ hl'))
        simp only [getSettings, hl, h2]
        have : i + 1 + (l2 :: rest2).length - 1 = i + (l :: l2 :: rest2).length - 1 := by
          simp [List.length_cons]; omega
        rw [this]
  · intro child root st k h1 h2
    simp [getSettings, h1, h2]

/-- C9 (amended) — `Resolver.reset` clears the rule/settings store and the
instance cache unconditionally and always succeeds; it performs no check
that a resolution is in progress (first conjunct, for every state — the
`next`/`resolving` components are untouched because the method only
reassigns `_settings` and `_instances`).  The remaining conjuncts show the
observable effect: a factory-override rule for `tgtX` governs resolution
before `reset` and no longer applies after it, and a cached singleton is
gone after `reset`, so the next resolve builds a fresh, distinct
instance. -/
theorem claim_C9_reset_clears :
    (∀ s : RState, resolverReset s = .ok ⟨[], [], s.next, s.resolving⟩)
    ∧ resolveCall singletonCfgR 5 tgtX overrideToNoneState =
        .ok (none, overrideToNoneState)
    ∧ resolverReset overrideToNoneState = .ok ⟨[], [], 0, false⟩
    ∧ resolveCall singletonCfgR 5 tgtX ⟨[], [], 0, false⟩ =
        .ok (some 0, ⟨[], [(tgtX, 0)], 1, false⟩)
    ∧ resolveCall singletonCfgR 5 tgtX rsInit = .ok (some 0, cachedState)
    ∧ resolverReset cachedState = .ok ⟨[], [], 1, false⟩
    ∧ resolveCall singletonCfgR 5 tgtX ⟨[], [], 1, false⟩ =
        .ok (some 1, ⟨[], [(tgtX, 1)], 2, false⟩) :=
  ⟨fun _ => rfl, rfl, rfl, rfl, rfl, rfl, rfl⟩

/-- C6 — Idempotent singleton: if the effective settings of `t` in the
current state carry the default `SINGLETON` scope and one `resolve(t)`
call succeeds with instance `v` and post-state `s1`, then a second
`resolve(t)` on `s1` returns the identical instance `v` and leaves the
state unchanged: the first successful build cached the instance (or a
pre-built `instance_` rule returned the same object), and the second call
finds it. -/
theorem claim_C6_idempotent_singleton (cfg : RCfg) (fuel : Nat) (t : PyType)
    (s s1 : RState) (v : Nat)
    (hscope : ((lookupA s.settings (SKey.tcls t)).getD EMPTY_SETTINGS).scope_ =
      SINGLETON)
    (h1 : resolveCall cfg fuel t s = .ok (some v, s1)) :
    resolveCall cfg fuel t s1 = .ok (some v, s1) := by
  match fuel with
  | 0 => exact absurd h1 (by simp [resolveCall, getInstance])
  | Nat.succ n =>
    rw [resolveCall] at h1
    cases hg : getInstance cfg (n + 1) t ⟨s.settings, s.instances, s.next, true⟩ with
    | error e => rw [hg] at h1; cases h1
    | ok p =>
      obtain ⟨v0, s1'⟩ := p
      rw [hg] at h1
      simp only [Except.ok.injEq, Prod.mk.injEq] at h1
      obtain ⟨hv0, hs1⟩ := h1
      subst hv0
      subst hs1
      rw [getInstance] at hg
      dsimp only at hg
      cases hc : lookupA s.instances t with
      | some i =>
        simp only [hc, Except.ok.injEq, Prod.mk.injEq] at hg
        obtain ⟨hvi, hsi⟩ := hg
        subst hsi
        obtain rfl : i = v := Option.some.inj hvi
        simp [resolveCall, getInstance, hc]
      | none =>
        simp only [hc] at hg
        simp only [createInstanceF] at hg
        cases hi : ((lookupA s.settings (SKey.tcls t)).getD EMPTY_SETTINGS).instance_ with
        | some i =>
          simp only [hi, Except.ok.injEq, Prod.mk.injEq] at hg
          obtain ⟨hvi, hsi⟩ := hg
          subst hsi
          obtain rfl : i = v := Option.some.inj hvi
          simp [resolveCall, getInstance, hc, createInstanceF, hi]
        | none =>
          simp only [hi] at hg
          cases hf : selectFactory cfg.registry
              ((lookupA s.settings (SKey.tcls t)).getD EMPTY_SETTINGS) t with
          | error e => simp only [hf] at hg; cases hg
          | ok f =>
            simp only [hf] at hg
            cases hcf : callFactoryF (getInstance cfg n) f
                ⟨s.settings, s.instances, s.next, true⟩ with
            | error e => simp only [hcf] at hg; cases hg
            | ok q =>
              obtain ⟨vv, s2⟩ := q
              simp only [hcf] at hg
              cases vv with
              | none => simp at hg
              | some i =>
                dsimp only at hg
                rw [if_pos hscope] at hg
                simp only [Except.ok.injEq, Prod.mk.injEq] at hg
                obtain ⟨hvi, hsi⟩ := hg
                subst hsi
                obtain rfl : i = v := Option.some.inj hvi
                simp [resolveCall, getInstance, lookupA_upsertA_self]

/-- C6 (witness) — the dependency-free singleton `tgtX`: a first resolve
from the fresh state succeeds with instance 0 and post-state
`cachedState`; applying the theorem there shows the second resolve
returns the identical instance 0 and the same state. -/
theorem claim_C6_witness :
    resolveCall singletonCfgR 5 tgtX cachedState = .ok (some 0, cachedState) :=
  claim_C6_idempotent_singleton singletonCfgR 5 tgtX rsInit cachedState 0 rfl rfl

end ClassicContainer
